import Mathlib

/-!
Verification of the job orchestration core of the Presentation Understanding
Engine (src/app/services/job_manager.py and src/app/services/async_processor.py),
as a shallow embedding in Lean.  Timestamps are modelled as abstract Nat ticks
supplied by the caller (each call site of datetime.utcnow() becomes an explicit
`now` argument); Python ints are Int where negativity matters and Nat elsewhere;
raising an exception is modelled with Except; external collaborators (LLM,
langdetect, json.loads, TTS, rendering, ffmpeg) are oracle parameters.
-/

/-- JobState enum (src/app/models/job.py lines 11-17). -/
inductive JobState where
  | pending
  | processing
  | completed
  | failed
  | cancelled
deriving DecidableEq, Repr

/-- SlideState enum (src/app/models/job.py lines 20-25). -/
inductive SlideState where
  | pending
  | processing
  | completed
  | failed
deriving DecidableEq, Repr

/-- SlideProgress model (src/app/models/job.py lines 28-34). -/
structure SlideProgress where
  slide_number : Nat
  narration : SlideState := .pending
  mcq : SlideState := .pending
  video : SlideState := .pending
  error : Option String := none
deriving DecidableEq, Repr

/-- MCQuestion model (src/app/models/job.py lines 37-42). -/
structure MCQuestion where
  question : String
  options : List String
  answer : String
  difficulty : String
deriving DecidableEq, Repr

/-- SlideResult model (src/app/models/job.py lines 45-54).  The `qa` field is an
optional dict from difficulty keys to question lists; a dict is modelled as an
association list, and a value of `some []` corresponds to the empty Python
dict `{}` (which is falsy, unlike None-checking might suggest). -/
structure SlideResult where
  slide_number : Nat
  text : String
  has_text : Bool
  narration : Option String := none
  qa : Option (List (String × List MCQuestion)) := none
  audio_path : Option String := none
  image_path : Option String := none
  video_path : Option String := none
deriving DecidableEq, Repr

/-- JobResult model (src/app/models/job.py lines 86-96); the float
processing_time_seconds is modelled in whole ticks. -/
structure JobResult where
  job_id : String
  status : JobState
  filename : String
  language : String
  slides : List SlideResult := []
  final_video_path : Option String := none
  processing_time_seconds : Option Nat := none
  created_at : Nat
  completed_at : Option Nat := none
deriving DecidableEq, Repr

/-- The per-job mutable dict built in JobManager.create_job
(src/app/services/job_manager.py lines 128-145). -/
structure JobData where
  job_id : String
  filename : String
  language : String
  max_slides : Nat
  generate_video : Bool
  generate_mcqs : Bool
  status : JobState
  progress : Int
  current_slide : Option Nat
  total_slides : Option Nat
  current_step : String
  slides_progress : List SlideProgress
  error : Option String
  created_at : Nat
  updated_at : Nat
  completed_at : Option Nat
deriving DecidableEq, Repr

/-- The job-error hierarchy used by the manager
(src/app/core/exceptions.py lines 202-248); each constructor keeps the
argument passed to the Python constructor. -/
inductive JobError where
  | notFound (arg : String)
  | tooManyJobs (max_jobs : Nat)
  | jobCancelled (job_id : String)
deriving DecidableEq, Repr

/-- The slice of application settings the job manager reads
(src/app/core/config.py line 78). -/
structure Settings where
  max_concurrent_jobs : Nat
deriving DecidableEq, Repr

/-- First-match lookup in an association list: Python dict access with unique
keys (OrderedDict in JobStore). -/
def find_entry {α : Type} : List (String × α) → String → Option α
  | [], _ => none
  | (k, v) :: rest, id => if k = id then some v else find_entry rest id

/-- Python dict assignment `d[id] = v`: replaces the value in place if the key
exists (keeping its position), otherwise appends at the end. -/
def insert_entry {α : Type} : List (String × α) → String → α → List (String × α)
  | [], id, v => [(id, v)]
  | (k, w) :: rest, id, v =>
      if k = id then (id, v) :: rest else (k, w) :: insert_entry rest id v

/-- Python dict deletion `del d[id]` / `d.pop(id, None)`: removes the first
(only) entry with the key. -/
def remove_entry {α : Type} : List (String × α) → String → List (String × α)
  | [], _ => []
  | (k, v) :: rest, id => if k = id then rest else (k, v) :: remove_entry rest id

/-- Applies a field update to the entry under a key, if present (Python
`d[id].update(fields)` expressed per call site as a function on the record). -/
def update_entry {α : Type} : List (String × α) → String → (α → α) → List (String × α)
  | [], _, _ => []
  | (k, v) :: rest, id, f =>
      if k = id then (k, f v) :: rest else (k, v) :: update_entry rest id f

/-- JobStore (src/app/services/job_manager.py lines 33-93): OrderedDict of jobs,
dict of results, capacity bound.  The lock is irrelevant in the sequential
model. -/
structure JobStore where
  jobs : List (String × JobData)
  results : List (String × JobResult)
  max_jobs : Nat
deriving DecidableEq, Repr

/-- The eviction loop in JobStore.create (src/app/services/job_manager.py
lines 46-50): while at or above capacity, drop the oldest job and its result.
The recursion is on the job list; Python's loop body always removes the head,
so the structural recursion matches it exactly on non-empty stores. -/
def evict_loop (max_jobs : Nat) :
    List (String × JobData) → List (String × JobResult) →
      List (String × JobData) × List (String × JobResult)
  | [], results => ([], results)
  | (k, v) :: rest, results =>
      if max_jobs ≤ rest.length + 1 then evict_loop max_jobs rest (remove_entry results k)
      else ((k, v) :: rest, results)

/-- JobStore.create (src/app/services/job_manager.py lines 42-52). -/
def JobStore.create (s : JobStore) (job_id : String) (data : JobData) : JobStore :=
  let (jobs', results') := evict_loop s.max_jobs s.jobs s.results
  { s with jobs := insert_entry jobs' job_id data, results := results' }

/-- JobStore.get (src/app/services/job_manager.py lines 54-57). -/
def JobStore.get (s : JobStore) (job_id : String) : Option JobData :=
  find_entry s.jobs job_id

/-- JobStore.update (src/app/services/job_manager.py lines 59-63): merges fields
into an existing record, no-op if the id is absent.  Each call site's field
dict becomes the record-update function `f`. -/
def JobStore.update (s : JobStore) (job_id : String) (f : JobData → JobData) : JobStore :=
  { s with jobs := update_entry s.jobs job_id f }

/-- JobStore.set_result (src/app/services/job_manager.py lines 65-68). -/
def JobStore.set_result (s : JobStore) (job_id : String) (r : JobResult) : JobStore :=
  { s with results := insert_entry s.results job_id r }

/-- JobStore.get_result (src/app/services/job_manager.py lines 70-73). -/
def JobStore.get_result (s : JobStore) (job_id : String) : Option JobResult :=
  find_entry s.results job_id

/-- Test used by JobStore.get_active_count
(src/app/services/job_manager.py line 86): status in [PENDING, PROCESSING]. -/
def is_active (s : JobState) : Bool :=
  s = .pending || s = .processing

/-- JobStore.get_active_count (src/app/services/job_manager.py lines 81-87). -/
def JobStore.get_active_count (s : JobStore) : Nat :=
  s.jobs.countP (fun kv => is_active kv.2.status)

/-- Terminal-state test in JobManager.cancel_job
(src/app/services/job_manager.py line 290). -/
def is_terminal (s : JobState) : Bool :=
  s = .completed || s = .failed || s = .cancelled

/-- JobManager state (src/app/services/job_manager.py lines 96-104): the store,
per-job subscriber callback lists (callbacks identified by Nat handles), and
the cancellation flags (the set of ids mapped to True in _cancel_flags). -/
structure JobManager where
  store : JobStore
  websocket_callbacks : List (String × List Nat)
  cancel_flags : List String
deriving DecidableEq, Repr

/-- The initial job_data dict of JobManager.create_job
(src/app/services/job_manager.py lines 128-145). -/
def initial_job_data (job_id filename language : String) (max_slides : Nat)
    (generate_video generate_mcqs : Bool) (now : Nat) : JobData :=
  { job_id := job_id
    filename := filename
    language := language
    max_slides := max_slides
    generate_video := generate_video
    generate_mcqs := generate_mcqs
    status := .pending
    progress := 0
    current_slide := none
    total_slides := none
    current_step := "Queued"
    slides_progress := []
    error := none
    created_at := now
    updated_at := now
    completed_at := none }

/-- JobManager.create_job (src/app/services/job_manager.py lines 106-150).
The uuid4 id is supplied by the environment as `job_id`. -/
def create_job (m : JobManager) (sett : Settings) (now : Nat) (job_id : String)
    (filename language : String) (max_slides : Nat)
    (generate_video generate_mcqs : Bool) : Except JobError (JobManager × String) :=
  if sett.max_concurrent_jobs ≤ m.store.get_active_count then
    .error (.tooManyJobs sett.max_concurrent_jobs)
  else
    let data := initial_job_data job_id filename language max_slides
      generate_video generate_mcqs now
    .ok ({ m with store := m.store.create job_id data }, job_id)

/-- JobManager.get_job_result (src/app/services/job_manager.py lines 160-169).
Python can fall through and return None when the record says completed but no
result is stored, hence the Option in the success branch. -/
def get_job_result (m : JobManager) (job_id : String) :
    Except JobError (Option JobResult) :=
  match m.store.get_result job_id with
  | some r => .ok (some r)
  | none =>
    match m.store.get job_id with
    | none => .error (.notFound job_id)
    | some j =>
      if j.status ≠ .completed then
        .error (.notFound ("Job " ++ job_id ++ " not completed yet"))
      else .ok none

/-- JobManager.update_progress (src/app/services/job_manager.py lines 171-195):
stores min(progress, 100), refreshes updated_at, sets the optional fields only
when supplied.  The fire-and-forget notification task has no effect on the
manager state. -/
def update_progress (m : JobManager) (job_id : String) (progress : Int)
    (current_slide : Option Nat) (current_step : Option String)
    (slides_progress : Option (List SlideProgress)) (now : Nat) : JobManager :=
  { m with store := m.store.update job_id (fun d =>
      { d with
        progress := min progress 100
        updated_at := now
        current_slide := (match current_slide with
          | some c => some c
          | none => d.current_slide)
        current_step := (current_step.getD d.current_step)
        slides_progress := (slides_progress.getD d.slides_progress) }) }

/-- JobManager.start_processing (src/app/services/job_manager.py lines 197-219).
`slide_numbers` is truthy only when it is a non-empty list. -/
def start_processing (m : JobManager) (job_id : String) (total_slides : Nat)
    (slide_numbers : Option (List Nat)) (now : Nat) : JobManager :=
  let slides : List SlideProgress :=
    match slide_numbers with
    | some (n :: ns) => (n :: ns).map (fun num => { slide_number := num })
    | _ => (List.range total_slides).map (fun i => { slide_number := i + 1 })
  { m with store := m.store.update job_id (fun d =>
      { d with
        status := .processing
        total_slides := some total_slides
        current_step := "Starting processing"
        slides_progress := slides
        updated_at := now }) }

/-- The optional sub-state arguments of one JobManager.update_slide_progress
call (src/app/services/job_manager.py lines 221-229). -/
structure SlideUpd where
  narration : Option SlideState := none
  mcq : Option SlideState := none
  video : Option SlideState := none
  error : Option String := none
deriving DecidableEq, Repr

/-- The per-field merge performed on the matching slide record
(src/app/services/job_manager.py lines 238-245): each field is overwritten only
when the corresponding argument is not None. -/
def apply_slide_upd (u : SlideUpd) (sp : SlideProgress) : SlideProgress :=
  { sp with
    narration := u.narration.getD sp.narration
    mcq := u.mcq.getD sp.mcq
    video := u.video.getD sp.video
    error := (match u.error with | some e => some e | none => sp.error) }

/-- The search-and-break loop of update_slide_progress
(src/app/services/job_manager.py lines 236-246): only the first slide record
with the matching number is updated. -/
def update_first_slide : List SlideProgress → Nat → SlideUpd → List SlideProgress
  | [], _, _ => []
  | sp :: rest, num, u =>
      if sp.slide_number = num then apply_slide_upd u sp :: rest
      else sp :: update_first_slide rest num u

/-- JobManager.update_slide_progress (src/app/services/job_manager.py
lines 221-253): returns unchanged if the job is absent, otherwise rewrites the
slide list (with the first matching slide merged) and refreshes updated_at. -/
def update_slide_progress (m : JobManager) (job_id : String) (slide_number : Nat)
    (u : SlideUpd) (now : Nat) : JobManager :=
  match m.store.get job_id with
  | none => m
  | some jd =>
    let slides' := update_first_slide jd.slides_progress slide_number u
    { m with store := m.store.update job_id (fun d =>
        { d with slides_progress := slides', updated_at := now }) }

/-- JobManager.complete_job (src/app/services/job_manager.py lines 255-270). -/
def complete_job (m : JobManager) (job_id : String) (result : JobResult)
    (now : Nat) : JobManager :=
  let st := (m.store.update job_id (fun d =>
      { d with
        status := .completed
        progress := 100
        current_step := "Completed"
        completed_at := some now
        updated_at := now })).set_result job_id result
  { m with store := st }

/-- JobManager.fail_job (src/app/services/job_manager.py lines 272-282). -/
def fail_job (m : JobManager) (job_id : String) (error : String) (now : Nat) :
    JobManager :=
  { m with store := m.store.update job_id (fun d =>
      { d with
        status := .failed
        error := some error
        current_step := "Failed"
        updated_at := now }) }

/-- JobManager.cancel_job (src/app/services/job_manager.py lines 284-301):
not-found for unknown ids, False without mutation on terminal jobs, otherwise
sets the cancellation flag, marks the job Cancelled and returns True. -/
def cancel_job (m : JobManager) (job_id : String) (now : Nat) :
    Except JobError (JobManager × Bool) :=
  match m.store.get job_id with
  | none => .error (.notFound job_id)
  | some d =>
    if is_terminal d.status then .ok (m, false)
    else
      .ok ({ m with
              cancel_flags := m.cancel_flags.insert job_id
              store := m.store.update job_id (fun d =>
                { d with
                  status := .cancelled
                  current_step := "Cancelled"
                  updated_at := now }) }, true)

/-- JobManager.is_cancelled (src/app/services/job_manager.py lines 303-305):
_cancel_flags.get(job_id, False). -/
def is_cancelled (m : JobManager) (job_id : String) : Bool :=
  decide (job_id ∈ m.cancel_flags)

/-- JobManager.check_cancellation (src/app/services/job_manager.py
lines 307-310). -/
def check_cancellation (m : JobManager) (job_id : String) : Except JobError Unit :=
  if is_cancelled m job_id then .error (.jobCancelled job_id) else .ok ()

/-- JobManager.subscribe (src/app/services/job_manager.py lines 316-320). -/
def subscribe (m : JobManager) (job_id : String) (cb : Nat) : JobManager :=
  let cur := (find_entry m.websocket_callbacks job_id).getD []
  { m with websocket_callbacks := insert_entry m.websocket_callbacks job_id (cur ++ [cb]) }

/-- JobManager.unsubscribe (src/app/services/job_manager.py lines 322-328). -/
def unsubscribe (m : JobManager) (job_id : String) (cb : Nat) : JobManager :=
  match find_entry m.websocket_callbacks job_id with
  | none => m
  | some cbs =>
    { m with websocket_callbacks :=
        insert_entry m.websocket_callbacks job_id (cbs.filter (fun c => c ≠ cb)) }

/-- JobManager._notify_progress (src/app/services/job_manager.py lines 330-352):
reads the callback list and the job, and if both are non-empty delivers the
message to every callback in order, catching (and merely logging) any exception
a callback raises.  `behave cb = false` models callback `cb` raising.  The
returned manager is the state after the broadcast — the source mutates neither
the store nor the callback lists — and the list records each attempted delivery
with its outcome. -/
def notify_progress (m : JobManager) (behave : Nat → Bool) (job_id : String) :
    JobManager × List (Nat × Bool) :=
  let callbacks := (find_entry m.websocket_callbacks job_id).getD []
  match m.store.get job_id with
  | some _ =>
    if callbacks.isEmpty then (m, [])
    else (m, callbacks.map (fun cb => (cb, behave cb)))
  | none => (m, [])

/-- Shape of one question dict inside the JSON the LLM returned, as the
validator reads it (src/app/services/qa_validator.py lines 21-25): each field
may be missing; a non-list `options` value behaves like a missing one (both are
skipped by the isinstance/length checks). -/
structure RawQuestion where
  question : Option String := none
  options : Option (List String) := none
  answer : Option String := none
  difficulty : Option String := none
deriving DecidableEq, Repr

/-- Shape of the decoded JSON object: `data.get("questions", [])`
(src/app/services/qa_validator.py line 18). -/
structure RawQA where
  questions : List RawQuestion := []
deriving DecidableEq, Repr

/-- The dict returned by validate_and_fix_mcqs: it carries only the
`questions` key (src/app/services/qa_validator.py lines 16 and 48), but the
orchestrator later reads the keys `easy`, `medium` and `hard` from it
(src/app/services/async_processor.py lines 167-168), so those always-absent
keys are modelled explicitly. -/
structure QAData where
  questions : List MCQuestion := []
  easy : Option (List MCQuestion) := none
  medium : Option (List MCQuestion) := none
  hard : Option (List MCQuestion) := none
deriving DecidableEq, Repr

/-- The per-question body of the validation loop
(src/app/services/qa_validator.py lines 21-46). -/
def validate_one_question (q : RawQuestion) : Option MCQuestion :=
  match q.question with
  | none => none
  | some question =>
    if question = "" then none
    else
      match q.options with
      | none => none
      | some options =>
        match options with
        | o0 :: _ =>
          if options.length ≠ 4 then none
          else
            let difficulty :=
              match q.difficulty with
              | some d => if d = "easy" ∨ d = "medium" then d else "easy"
              | none => "easy"
            let answer :=
              match q.answer with
              | some a => if a ∈ options then a else o0
              | none => o0
            some { question := question, options := options,
                   answer := answer, difficulty := difficulty }
        | [] => none

/-- validate_and_fix_mcqs (src/app/services/qa_validator.py lines 4-48), taking
the result of json.loads as input (`none` models a JSONDecodeError). -/
def validate_and_fix_mcqs (parsed : Option RawQA) : QAData :=
  match parsed with
  | none => { questions := [] }
  | some data => { questions := data.questions.filterMap validate_one_question }

/-- The language map of src/app/services/language_utils.py lines 3-7. -/
def LANG_MAP : List (String × String) := [("en", "en"), ("fr", "fr"), ("hi", "hi")]

/-- is_text_in_language (src/app/services/language_utils.py lines 9-17), with
the external langdetect detector as an oracle (`.error` models
LangDetectException). -/
def is_text_in_language (detect : String → Except Unit String)
    (text expected_language : String) : Bool :=
  match detect text with
  | .ok detected => detected = (find_entry LANG_MAP expected_language).getD expected_language
  | .error _ => false

/-- validate_mcq_language (src/app/services/qa_validator.py lines 50-60). -/
def validate_mcq_language (detect : String → Except Unit String)
    (qa : QAData) (language : String) : Bool :=
  qa.questions.all (fun q =>
    is_text_in_language detect q.question language &&
    q.options.all (fun opt => is_text_in_language detect opt language))

/-- Outcomes of the external collaborators for one slide's processing run
(src/app/services/async_processor.py lines 124-213): each `Except.error e`
models the collaborator raising an exception whose text is `e`.  `quiz_raw n`
is the result of the (n+1)-th generate_mcqs_async call, `parse_mcq_json` is the
json.loads step inside the validator, `detect` the langdetect oracle. -/
structure SlideOracles where
  narration : Except String String
  quiz_raw : Nat → Except String String
  parse_mcq_json : String → Option RawQA
  detect : String → Except Unit String
  tts : Except String String
  render : Except String String
  assemble : Except String String

/-- The quiz generate/validate/retry block
(src/app/services/async_processor.py lines 151-164), returning the validated
quiz data together with the number of generate_mcqs_async calls made.  A
generation failure propagates (to be caught at the slide boundary). -/
def quiz_stage (o : SlideOracles) (language : String) :
    Except String QAData × Nat :=
  match o.quiz_raw 0 with
  | .error e => (.error e, 1)
  | .ok raw1 =>
    let validated1 := validate_and_fix_mcqs (o.parse_mcq_json raw1)
    if validated1.questions.isEmpty || !(validate_mcq_language o.detect validated1 language) then
      match o.quiz_raw 1 with
      | .error e => (.error e, 2)
      | .ok raw2 =>
        let validated2 := validate_and_fix_mcqs (o.parse_mcq_json raw2)
        if !(validate_mcq_language o.detect validated2 language) then
          (.ok { questions := [] }, 2)
        else (.ok validated2, 2)
    else (.ok validated1, 1)

/-- The qa_obj construction (src/app/services/async_processor.py lines 166-169):
for each difficulty key, include it only when `validated_qa.get(diff)` is
truthy, i.e. present and a non-empty list. -/
def build_qa_obj (v : QAData) : List (String × List MCQuestion) :=
  (match v.easy with
   | some l => if l.isEmpty then [] else [("easy", l)]
   | none => []) ++
  (match v.medium with
   | some l => if l.isEmpty then [] else [("medium", l)]
   | none => []) ++
  (match v.hard with
   | some l => if l.isEmpty then [] else [("hard", l)]
   | none => [])

/-- Python truthiness of an optional string (`not slide_result.narration`,
`not slide_result.video_path`): falsy when absent or empty. -/
def opt_str_falsy : Option String → Bool
  | none => true
  | some s => s = ""

/-- Python truthiness of the optional qa dict (`not slide_result.qa`): falsy
when absent or the empty dict. -/
def qa_falsy : Option (List (String × List MCQuestion)) → Bool
  | none => true
  | some l => l.isEmpty

/-- The slide-boundary exception handler
(src/app/services/async_processor.py lines 205-213): one
update_slide_progress call re-deriving every sub-state from what the partial
SlideResult managed to record, with the captured error text. -/
def slide_failure_upd (generate_mcqs generate_video : Bool) (res : SlideResult)
    (e : String) : SlideUpd :=
  { narration := some (if opt_str_falsy res.narration then .failed else .completed)
    mcq := some (if generate_mcqs && qa_falsy res.qa then .failed else .completed)
    video := some (if generate_video && opt_str_falsy res.video_path then .failed else .completed)
    error := some e }

/-- One slide's pass through the pipeline body
(src/app/services/async_processor.py lines 118-213), tracking the partial
SlideResult, the slide's progress record as successive update_slide_progress
calls rewrite it, and the ordered list of those calls.  Cancellation does not
occur inside the body (check_cancellation runs before it), and the per-slide
update_progress percentage reports are modelled separately by
`progress_trace`. -/
def process_slide (o : SlideOracles) (language : String)
    (generate_mcqs generate_video : Bool) (slide_num : Nat) (slide_text : String) :
    SlideResult × SlideProgress × List SlideUpd :=
  let sp0 : SlideProgress := { slide_number := slide_num }
  let res0 : SlideResult := { slide_number := slide_num, text := slide_text, has_text := true }
  let finish := fun (res : SlideResult) (sp : SlideProgress) (upds : List SlideUpd)
      (e : String) =>
    let u := slide_failure_upd generate_mcqs generate_video res e
    (res, apply_slide_upd u sp, upds ++ [u])
  let u1 : SlideUpd := { narration := some .processing }
  let sp1 := apply_slide_upd u1 sp0
  match o.narration with
  | .error e => finish res0 sp1 [u1] e
  | .ok narration =>
    let res1 := { res0 with narration := some narration }
    let u2 : SlideUpd := { narration := some .completed }
    let sp2 := apply_slide_upd u2 sp1
    let afterMcq : SlideResult × SlideProgress × List SlideUpd ⊕
        SlideResult × SlideProgress × List SlideUpd :=
      if generate_mcqs then
        let u3 : SlideUpd := { mcq := some .processing }
        let sp3 := apply_slide_upd u3 sp2
        match (quiz_stage o language).1 with
        | .error e => .inr (finish res1 sp3 [u1, u2, u3] e)
        | .ok validated =>
          let res2 := { res1 with qa := some (build_qa_obj validated) }
          let u4 : SlideUpd := { mcq := some .completed }
          .inl (res2, apply_slide_upd u4 sp3, [u1, u2, u3, u4])
      else .inl (res1, sp2, [u1, u2])
    match afterMcq with
    | .inr failed => failed
    | .inl (res, sp, upds) =>
      if generate_video && !(narration = "") then
        let u5 : SlideUpd := { video := some .processing }
        let sp5 := apply_slide_upd u5 sp
        match o.tts with
        | .error e => finish res sp5 (upds ++ [u5]) e
        | .ok audio_path =>
          let resA := { res with audio_path := some audio_path }
          match o.render with
          | .error e => finish resA sp5 (upds ++ [u5]) e
          | .ok image_path =>
            let resI := { resA with image_path := some image_path }
            match o.assemble with
            | .error e => finish resI sp5 (upds ++ [u5]) e
            | .ok video_path =>
              let resV := { resI with video_path := some video_path }
              let u6 : SlideUpd := { video := some .completed }
              (resV, apply_slide_upd u6 sp5, upds ++ [u5, u6])
      else (res, sp, upds)

/-- Per-slide base progress (src/app/services/async_processor.py line 110):
10 + idx * 80 // total_slides. -/
def base_progress (total_slides idx : Nat) : Nat :=
  10 + idx * 80 / total_slides

/-- The update_progress percentages reported while one slide is processed
(src/app/services/async_processor.py lines 111-116, 127-130, 140-143, 177-180):
the base at the slide start, base+5 before narration, base+10 before MCQ
generation if that write is reached, and base+15 before video work if that
write is reached.  The two booleans say whether the latter two reports
happen for this slide. -/
def slide_writes (total_slides idx : Nat) (mcq_write video_write : Bool) : List Nat :=
  [base_progress total_slides idx, base_progress total_slides idx + 5] ++
    (if mcq_write then [base_progress total_slides idx + 10] else []) ++
    (if video_write then [base_progress total_slides idx + 15] else [])

/-- Concatenation of the slide write blocks over the deck, indexing slides
from `idx` (the enumerate loop of src/app/services/async_processor.py
line 102). -/
def slide_writes_from (total_slides : Nat) : Nat → List (Bool × Bool) → List Nat
  | _, [] => []
  | idx, c :: rest =>
      slide_writes total_slides idx c.1 c.2 ++ slide_writes_from total_slides (idx + 1) rest

/-- The full sequence of percentages one job run passes to update_progress /
complete_job (src/app/services/async_processor.py lines 68, 110-116, 127-130,
140-143, 177-180, 220 and job_manager.py line 261): 5 for parsing, the
per-slide blocks, 95 before stitching when any per-slide video was produced,
and 100 on completion.  `cfg` holds one (mcq write?, video write?) pair per
slide, so the deck has `cfg.length` slides. -/
def progress_trace (cfg : List (Bool × Bool)) (stitch : Bool) : List Nat :=
  5 :: (slide_writes_from cfg.length 0 cfg ++ ((if stitch then [95] else []) ++ [100]))

/-- The values actually stored for the job, after update_progress clamps each
report with min(progress, 100) (src/app/services/job_manager.py line 181). -/
def stored_trace (cfg : List (Bool × Bool)) (stitch : Bool) : List Nat :=
  (progress_trace cfg stitch).map (fun p => min p 100)

/-! Association-list facts used throughout. -/

theorem find_insert_entry_self {α : Type} (l : List (String × α)) (id : String) (v : α) :
    find_entry (insert_entry l id v) id = some v := by
  induction l with
  | nil => simp [insert_entry, find_entry]
  | cons kv rest ih =>
    obtain ⟨k, w⟩ := kv
    by_cases hk : k = id
    · simp [insert_entry, hk, find_entry]
    · simp [insert_entry, hk, find_entry, ih]

theorem insert_entry_of_not_mem {α : Type} (l : List (String × α)) (id : String) (v : α)
    (h : id ∉ l.map Prod.fst) : insert_entry l id v = l ++ [(id, v)] := by
  induction l with
  | nil => simp [insert_entry]
  | cons kv rest ih =>
    obtain ⟨k, w⟩ := kv
    simp only [List.map_cons, List.mem_cons, not_or] at h
    simp [insert_entry, Ne.symm h.1, ih h.2]

theorem find_update_entry_self {α : Type} (l : List (String × α)) (id : String) (f : α → α) :
    find_entry (update_entry l id f) id = (find_entry l id).map f := by
  induction l with
  | nil => simp [update_entry, find_entry]
  | cons kv rest ih =>
    obtain ⟨k, w⟩ := kv
    by_cases hk : k = id
    · simp [update_entry, hk, find_entry]
    · simp [update_entry, hk, find_entry, ih]

theorem countP_update_entry {α : Type} (l : List (String × α)) (id : String) (f : α → α)
    (p : String × α → Bool) (d : α) (h : find_entry l id = some d)
    (hpd : p (id, d) = true) (hpf : p (id, f d) = false) :
    l.countP p = (update_entry l id f).countP p + 1 := by
  induction l with
  | nil => simp [find_entry] at h
  | cons kv rest ih =>
    obtain ⟨k, w⟩ := kv
    by_cases hk : k = id
    · subst hk
      simp only [find_entry, eq_self_iff_true, if_true, Option.some.injEq] at h
      subst h
      simp [update_entry, List.countP_cons, hpd, hpf]
    · simp only [find_entry, if_neg hk] at h
      simp [update_entry, hk, List.countP_cons, ih h]
      omega

theorem find_entry_mem {α : Type} {l : List (String × α)} {id : String} {v : α}
    (h : find_entry l id = some v) : (id, v) ∈ l := by
  induction l with
  | nil => simp [find_entry] at h
  | cons kv rest ih =>
    obtain ⟨k, w⟩ := kv
    by_cases hk : k = id
    · subst hk
      simp only [find_entry, eq_self_iff_true, if_true, Option.some.injEq] at h
      subst h
      exact List.mem_cons_self _ _
    · simp only [find_entry, if_neg hk] at h
      exact List.mem_cons_of_mem _ (ih h)

theorem evict_loop_of_short (max_jobs : Nat) (l : List (String × JobData))
    (r : List (String × JobResult)) (h : l.length < max_jobs) :
    evict_loop max_jobs l r = (l, r) := by
  cases l with
  | nil =>
    simp [evict_loop]
  | cons kv rest =>
    obtain ⟨k, v⟩ := kv
    simp only [List.length_cons] at h
    simp [evict_loop, Nat.not_le.mpr h]

/-! Shared sample states for witnesses and counterexamples. -/

/-- A job record in the given state, as create_job would have built it. -/
def sample_job (id : String) (st : JobState) : JobData :=
  { initial_job_data id "deck.pptx" "en" 5 true true 0 with status := st }

/-- A stored result for a completed job. -/
def sample_result (id : String) : JobResult :=
  { job_id := id, status := .completed, filename := "deck.pptx", language := "en",
    created_at := 0 }

/-- C6: for a JobStore holding exactly max_jobs entries, creating a fresh job
first evicts exactly the oldest-inserted job together with its stored result,
then appends the new job, leaving every other entry unchanged and the store at
exactly max_jobs entries. -/
theorem c6_store_fifo_eviction (s : JobStore) (id : String) (d : JobData)
    (hlen : s.jobs.length = s.max_jobs) (hpos : 1 ≤ s.max_jobs)
    (hfresh : id ∉ s.jobs.map Prod.fst) :
    ∃ k v rest, s.jobs = (k, v) :: rest ∧
      (s.create id d).jobs = rest ++ [(id, d)] ∧
      (s.create id d).results = remove_entry s.results k ∧
      (s.create id d).jobs.length = s.max_jobs ∧
      (s.create id d).max_jobs = s.max_jobs := by
  rcases hj : s.jobs with _ | ⟨⟨k, v⟩, rest⟩
  · rw [hj] at hlen
    simp at hlen
    omega
  · refine ⟨k, v, rest, rfl, ?_⟩
    have hrest : rest.length + 1 = s.max_jobs := by
      rw [hj] at hlen
      simpa using hlen
    have hev : evict_loop s.max_jobs s.jobs s.results =
        (rest, remove_entry s.results k) := by
      rw [hj]
      simp only [evict_loop, if_pos (le_of_eq hrest.symm)]
      exact evict_loop_of_short _ _ _ (by omega)
    have hfresh' : id ∉ rest.map Prod.fst := by
      rw [hj] at hfresh
      simp only [List.map_cons, List.mem_cons, not_or] at hfresh
      exact hfresh.2
    constructor
    · show (insert_entry (evict_loop s.max_jobs s.jobs s.results).1 id d) = rest ++ [(id, d)]
      rw [hev, insert_entry_of_not_mem _ _ _ hfresh']
    constructor
    · show (evict_loop s.max_jobs s.jobs s.results).2 = remove_entry s.results k
      rw [hev]
    constructor
    · show (insert_entry (evict_loop s.max_jobs s.jobs s.results).1 id d).length = s.max_jobs
      rw [hev, insert_entry_of_not_mem _ _ _ hfresh']
      simp
      omega
    · rfl

/-- Witness for C6 at a concrete two-job store at capacity. -/
theorem c6_store_fifo_eviction_witness :
    ∃ k v rest,
      (JobStore.mk [("a", sample_job "a" .completed), ("b", sample_job "b" .pending)]
        [("a", sample_result "a")] 2).jobs = (k, v) :: rest ∧
      ((JobStore.mk [("a", sample_job "a" .completed), ("b", sample_job "b" .pending)]
        [("a", sample_result "a")] 2).create "c" (sample_job "c" .pending)).jobs =
          rest ++ [("c", sample_job "c" .pending)] ∧
      ((JobStore.mk [("a", sample_job "a" .completed), ("b", sample_job "b" .pending)]
        [("a", sample_result "a")] 2).create "c" (sample_job "c" .pending)).results =
          remove_entry [("a", sample_result "a")] k ∧
      ((JobStore.mk [("a", sample_job "a" .completed), ("b", sample_job "b" .pending)]
        [("a", sample_result "a")] 2).create "c" (sample_job "c" .pending)).jobs.length = 2 ∧
      ((JobStore.mk [("a", sample_job "a" .completed), ("b", sample_job "b" .pending)]
        [("a", sample_result "a")] 2).create "c" (sample_job "c" .pending)).max_jobs = 2 :=
  c6_store_fifo_eviction _ "c" (sample_job "c" .pending) (by decide) (by decide) (by decide)

/-- Result lookups ignore the jobs map and vice versa. -/
theorem get_set_result (s : JobStore) (id rid : String) (r : JobResult) :
    (s.set_result rid r).get id = s.get id := rfl

/-- Updating a job leaves the results map unchanged. -/
theorem get_result_update (s : JobStore) (id rid : String) (f : JobData → JobData) :
    (s.update rid f).get_result id = s.get_result id := rfl

/-- C7: get_job_result raises the typed not-found error when the id is absent
from the store (neither a job record nor a result), signals "not completed"
(a not-found error carrying that message) when the record exists in a
non-Completed state with no result, and after complete_job returns exactly the
stored result; being a pure read, a second call returns the identical value. -/
theorem c7_get_job_result_contract (m : JobManager) (id : String) (r : JobResult)
    (now : Nat) :
    (m.store.get_result id = none → m.store.get id = none →
       get_job_result m id = .error (.notFound id)) ∧
    (∀ d, m.store.get_result id = none → m.store.get id = some d →
       d.status ≠ .completed →
       get_job_result m id = .error (.notFound ("Job " ++ id ++ " not completed yet"))) ∧
    get_job_result (complete_job m id r now) id = .ok (some r) := by
  refine ⟨?_, ?_, ?_⟩
  · intro hr hj
    simp [get_job_result, hr, hj]
  · intro d hr hj hst
    simp [get_job_result, hr, hj, hst]
  · have : (complete_job m id r now).store.get_result id = some r := by
      show find_entry (insert_entry _ id r) id = some r
      exact find_insert_entry_self _ _ _
    simp [get_job_result, this]

/-- Witness for C7: the three branches at concrete stores — an empty store, a
store holding a pending job, and a store after complete_job. -/
theorem c7_get_job_result_contract_witness :
    get_job_result (JobManager.mk (JobStore.mk [] [] 100) [] []) "x" =
      .error (.notFound "x") ∧
    get_job_result
      (JobManager.mk (JobStore.mk [("j", sample_job "j" .pending)] [] 100) [] []) "j" =
      .error (.notFound ("Job " ++ "j" ++ " not completed yet")) ∧
    get_job_result
      (complete_job
        (JobManager.mk (JobStore.mk [("j", sample_job "j" .processing)] [] 100) [] [])
        "j" (sample_result "j") 3) "j" = .ok (some (sample_result "j")) := by
  refine ⟨?_, ?_, ?_⟩
  · exact (c7_get_job_result_contract
      (JobManager.mk (JobStore.mk [] [] 100) [] []) "x" (sample_result "x") 0).1
      (by decide) (by decide)
  · exact (c7_get_job_result_contract
      (JobManager.mk (JobStore.mk [("j", sample_job "j" .pending)] [] 100) [] [])
      "j" (sample_result "j") 0).2.1 (sample_job "j" .pending)
      (by decide) (by decide) (by decide)
  · exact (c7_get_job_result_contract
      (JobManager.mk (JobStore.mk [("j", sample_job "j" .processing)] [] 100) [] [])
      "j" (sample_result "j") 3).2.2

/-- C8 (amended): update_progress stores min(percent, 100) and refreshes
updated_at; the stored value is clamped only from above, so it lies in [0,100]
for every non-negative input, but a negative input is stored as it is. -/
theorem c8_update_progress_clamp (m : JobManager) (id : String) (p : Int)
    (now : Nat) (d : JobData) (h : m.store.get id = some d) :
    ∃ d', (update_progress m id p none none none now).store.get id = some d' ∧
      d'.progress = min p 100 ∧ d'.updated_at = now ∧
      (0 ≤ p → 0 ≤ d'.progress ∧ d'.progress ≤ 100) := by
  have hg : (update_progress m id p none none none now).store.get id =
      (m.store.get id).map (fun d =>
        { d with progress := min p 100, updated_at := now }) := by
    show find_entry (update_entry _ id _) id = _
    rw [find_update_entry_self]
    rw [show (m.store.get id) = find_entry m.store.jobs id from rfl]
    cases find_entry m.store.jobs id with
    | none => rfl
    | some d => rfl
  refine ⟨{ d with progress := min p 100, updated_at := now }, ?_, rfl, rfl, ?_⟩
  · rw [hg, h]
    rfl
  · intro hp
    constructor
    · exact le_min hp (by omega)
    · exact min_le_right _ _

/-- Witness for C8 at a concrete job and an in-range input. -/
theorem c8_update_progress_clamp_witness :
    ∃ d', (update_progress
        (JobManager.mk (JobStore.mk [("j", sample_job "j" .processing)] [] 100) [] [])
        "j" 42 none none none 9).store.get "j" = some d' ∧
      d'.progress = min 42 100 ∧ d'.updated_at = 9 ∧
      (0 ≤ (42 : Int) → 0 ≤ d'.progress ∧ d'.progress ≤ 100) :=
  c8_update_progress_clamp _ "j" 42 9 (sample_job "j" .processing) (by decide)

/-- C8 counterexample: the claim promises a stored value of at least 0 for
every integer input, but update_progress applies no lower clamp — a call with
-5 stores -5. -/
theorem c8_no_lower_clamp_counterexample :
    ((update_progress
        (JobManager.mk (JobStore.mk [("j", sample_job "j" .processing)] [] 100) [] [])
        "j" (-5) none none none 9).store.get "j").map JobData.progress = some (-5) ∧
    ¬ (0 : Int) ≤ -5 := by
  constructor
  · decide
  · decide

/-- C2 (amended): only cancel_job treats terminal states as absorbing — on a
Completed/Failed/Cancelled job it returns False and leaves the manager
untouched.  The other mutators check nothing: complete_job, fail_job,
update_progress and update_slide_progress all rewrite a terminal job's record
(so a Cancelled job later becomes Completed if complete_job is called). -/
theorem c2_only_cancel_rejects_terminal (m : JobManager) (id : String) (d : JobData)
    (r : JobResult) (e : String) (p : Int) (num now : Nat) (u : SlideUpd)
    (h : m.store.get id = some d) (ht : is_terminal d.status = true) :
    cancel_job m id now = .ok (m, false) ∧
    ((complete_job m id r now).store.get id).map JobData.status = some .completed ∧
    ((fail_job m id e now).store.get id).map JobData.status = some .failed ∧
    ((update_progress m id p none none none now).store.get id).map JobData.updated_at =
      some now ∧
    ((update_slide_progress m id num u now).store.get id).map JobData.updated_at =
      some now := by
  have hfind : find_entry m.store.jobs id = some d := h
  refine ⟨?_, ?_, ?_, ?_, ?_⟩
  · simp [cancel_job, h, ht]
  · show ((((m.store.update id _).set_result id r).get id).map JobData.status) = _
    rw [get_set_result]
    show ((find_entry (update_entry _ id _) id).map JobData.status) = _
    rw [find_update_entry_self, hfind]
    rfl
  · show ((find_entry (update_entry _ id _) id).map JobData.status) = _
    rw [find_update_entry_self, hfind]
    rfl
  · show ((find_entry (update_entry _ id _) id).map JobData.updated_at) = _
    rw [find_update_entry_self, hfind]
    rfl
  · rw [update_slide_progress, h]
    show ((find_entry (update_entry _ id _) id).map JobData.updated_at) = _
    rw [find_update_entry_self, hfind]
    rfl

/-- A one-job manager whose job is already cancelled. -/
def cancelled_manager : JobManager :=
  JobManager.mk (JobStore.mk [("j", sample_job "j" .cancelled)] [] 100) [] ["j"]

/-- Witness for C2 at a concrete cancelled job. -/
theorem c2_only_cancel_rejects_terminal_witness :
    cancel_job cancelled_manager "j" 4 = .ok (cancelled_manager, false) ∧
    ((complete_job cancelled_manager "j" (sample_result "j") 4).store.get "j").map
      JobData.status = some .completed :=
  ⟨(c2_only_cancel_rejects_terminal cancelled_manager "j" (sample_job "j" .cancelled)
      (sample_result "j") "boom" 0 0 4 {} (by decide) (by decide)).1,
   (c2_only_cancel_rejects_terminal cancelled_manager "j" (sample_job "j" .cancelled)
      (sample_result "j") "boom" 0 0 4 {} (by decide) (by decide)).2.1⟩

/-- C2 counterexample: the claim says a Cancelled job's state can never change
again, but complete_job flips a concrete Cancelled job to Completed. -/
theorem c2_terminal_not_absorbing_counterexample :
    (cancelled_manager.store.get "j").map JobData.status = some .cancelled ∧
    ((complete_job cancelled_manager "j" (sample_result "j") 4).store.get "j").map
      JobData.status = some .completed := by
  constructor
  · decide
  · decide

/-- Creating a job makes its record retrievable, whatever eviction did first. -/
theorem get_create_self (s : JobStore) (id : String) (d : JobData) :
    (s.create id d).get id = some d := by
  show find_entry (insert_entry (evict_loop s.max_jobs s.jobs s.results).1 id d) id = some d
  exact find_insert_entry_self _ _ _

/-- Marking an active job failed lowers the active count by exactly one. -/
theorem active_count_fail_job (m : JobManager) (jid e : String) (now : Nat) (d : JobData)
    (hj : m.store.get jid = some d) (hd : is_active d.status = true) :
    m.store.get_active_count = (fail_job m jid e now).store.get_active_count + 1 := by
  exact countP_update_entry m.store.jobs jid _ _ d hj (by simpa using hd) rfl

/-- C5: create_job rejects with the typed TooManyJobsError exactly when the
count of Pending/Processing jobs has reached max_concurrent_jobs; at the
boundary it rejects, and after one active job is marked failed the same create
succeeds, storing a fresh Pending record with progress 0 and returning the
supplied id. -/
theorem c5_admission_control (m : JobManager) (sett : Settings) (now now2 : Nat)
    (id jid fn lang e : String) (ms : Nat) (gv gm : Bool) (d : JobData)
    (hact : m.store.get_active_count = sett.max_concurrent_jobs)
    (hj : m.store.get jid = some d) (hd : is_active d.status = true) :
    (∀ m' : JobManager,
       (∃ err, create_job m' sett now id fn lang ms gv gm = .error err) ↔
         sett.max_concurrent_jobs ≤ m'.store.get_active_count) ∧
    create_job m sett now id fn lang ms gv gm =
      .error (.tooManyJobs sett.max_concurrent_jobs) ∧
    (∃ m2, create_job (fail_job m jid e now2) sett now id fn lang ms gv gm =
        .ok (m2, id) ∧
      ∃ d2, m2.store.get id = some d2 ∧ d2.status = .pending ∧ d2.progress = 0 ∧
        d2.created_at = now) := by
  have hdec := active_count_fail_job m jid e now2 d hj hd
  have hle : sett.max_concurrent_jobs ≤ m.store.get_active_count := le_of_eq hact.symm
  refine ⟨?_, ?_, ?_⟩
  · intro m'
    constructor
    · rintro ⟨err, herr⟩
      by_contra hlt
      simp [create_job, hlt] at herr
    · intro hle'
      exact ⟨.tooManyJobs sett.max_concurrent_jobs, by simp [create_job, hle']⟩
  · simp [create_job, hle]
  · have hlt : (fail_job m jid e now2).store.get_active_count < sett.max_concurrent_jobs := by
      omega
    refine ⟨{ fail_job m jid e now2 with
        store := (fail_job m jid e now2).store.create id
          (initial_job_data id fn lang ms gv gm now) }, ?_, ?_⟩
    · simp [create_job, Nat.not_le.mpr hlt]
    · refine ⟨initial_job_data id fn lang ms gv gm now, ?_, rfl, rfl, rfl⟩
      exact get_create_self _ id _

/-- Witness for C5: one pending job, a limit of one — creation is rejected,
and succeeds again after the active job fails. -/
theorem c5_admission_control_witness :
    (∀ m' : JobManager,
       (∃ err, create_job m' (Settings.mk 1) 7 "b" "deck.pptx" "en" 5 true true =
          .error err) ↔ 1 ≤ m'.store.get_active_count) ∧
    create_job
      (JobManager.mk (JobStore.mk [("a", sample_job "a" .pending)] [] 100) [] [])
      (Settings.mk 1) 7 "b" "deck.pptx" "en" 5 true true = .error (.tooManyJobs 1) ∧
    (∃ m2, create_job
        (fail_job
          (JobManager.mk (JobStore.mk [("a", sample_job "a" .pending)] [] 100) [] [])
          "a" "boom" 6)
        (Settings.mk 1) 7 "b" "deck.pptx" "en" 5 true true = .ok (m2, "b") ∧
      ∃ d2, m2.store.get "b" = some d2 ∧ d2.status = .pending ∧ d2.progress = 0 ∧
        d2.created_at = 7) :=
  c5_admission_control
    (JobManager.mk (JobStore.mk [("a", sample_job "a" .pending)] [] 100) [] [])
    (Settings.mk 1) 7 6 "b" "a" "deck.pptx" "en" "boom" 5 true true
    (sample_job "a" .pending) (by decide) (by decide) (by decide)

/-- C9 (amended): when a subscriber raises during a broadcast, the exception is
caught at the delivery loop (the mutating caller never sees it), delivery is
still attempted for every subscriber in the list, and — contrary to the claim —
the failing subscriber is NOT removed: the callback list is untouched, so the
same subscriber is attempted again on the next broadcast. -/
theorem c9_failing_subscriber_kept (m : JobManager) (behave : Nat → Bool)
    (id : String) (cbs : List Nat) (bad : Nat) (d : JobData)
    (hcb : find_entry m.websocket_callbacks id = some cbs)
    (hj : m.store.get id = some d)
    (hbad : bad ∈ cbs) (hfail : behave bad = false) :
    (notify_progress m behave id).1 = m ∧
    (notify_progress m behave id).2 = cbs.map (fun cb => (cb, behave cb)) ∧
    (bad, false) ∈ (notify_progress m behave id).2 ∧
    find_entry (notify_progress m behave id).1.websocket_callbacks id = some cbs := by
  have hne : cbs.isEmpty = false := by
    cases cbs with
    | nil => simp at hbad
    | cons a l => rfl
  have hrun : notify_progress m behave id = (m, cbs.map (fun cb => (cb, behave cb))) := by
    simp [notify_progress, hcb, hj, hne]
  refine ⟨by rw [hrun], by rw [hrun], ?_, by rw [hrun]; exact hcb⟩
  rw [hrun]
  exact List.mem_map.mpr ⟨bad, hbad, by rw [hfail]⟩

/-- A one-subscriber manager used by the C9 witness and counterexample. -/
def subscribed_manager : JobManager :=
  JobManager.mk (JobStore.mk [("j", sample_job "j" .processing)] [] 100) [("j", [7])] []

/-- Witness for C9: subscriber 7 fails on delivery, others would still be
attempted, and 7 is still subscribed afterwards. -/
theorem c9_failing_subscriber_kept_witness :
    (notify_progress subscribed_manager (fun _ => false) "j").1 = subscribed_manager ∧
    (notify_progress subscribed_manager (fun _ => false) "j").2 =
      [7].map (fun cb => (cb, false)) ∧
    (7, false) ∈ (notify_progress subscribed_manager (fun _ => false) "j").2 ∧
    find_entry (notify_progress subscribed_manager (fun _ => false) "j").1.websocket_callbacks
      "j" = some [7] :=
  c9_failing_subscriber_kept subscribed_manager (fun _ => false) "j" [7] 7
    (sample_job "j" .processing) (by decide) (by decide) (by decide) rfl

/-- C9 counterexample: after a broadcast on which subscriber 7 raised, the
claim says 7 has been removed from the job's subscriber list; in fact the list
still contains it. -/
theorem c9_subscriber_not_removed_counterexample :
    (notify_progress subscribed_manager (fun _ => false) "j").2 = [(7, false)] ∧
    find_entry (notify_progress subscribed_manager (fun _ => false) "j").1.websocket_callbacks
      "j" = some [7] := by
  constructor
  · rfl
  · rfl

/-- A validated quiz dict with no questions is exactly the empty fallback
value: validate_and_fix_mcqs never populates any other key. -/
theorem validate_empty_of_no_questions (p : Option RawQA)
    (h : (validate_and_fix_mcqs p).questions = []) :
    validate_and_fix_mcqs p = { questions := [] } := by
  cases p with
  | none => rfl
  | some data =>
    simp only [validate_and_fix_mcqs] at h ⊢
    rw [h]

/-- Evaluation of the quiz stage when the first validated output fails
validation and both generation calls succeed. -/
theorem quiz_stage_retry_eval (o : SlideOracles) (language raw1 raw2 : String)
    (h0 : o.quiz_raw 0 = .ok raw1) (h1 : o.quiz_raw 1 = .ok raw2)
    (hcond : ((validate_and_fix_mcqs (o.parse_mcq_json raw1)).questions.isEmpty ||
      !(validate_mcq_language o.detect (validate_and_fix_mcqs (o.parse_mcq_json raw1))
        language)) = true) :
    quiz_stage o language =
      ((if !(validate_mcq_language o.detect (validate_and_fix_mcqs (o.parse_mcq_json raw2))
            language) then
          .ok { questions := [] }
        else .ok (validate_and_fix_mcqs (o.parse_mcq_json raw2))), 2) := by
  unfold quiz_stage
  rw [h0]
  dsimp only
  rw [if_pos hcond, h1]
  dsimp only
  split <;> rfl

/-- C4: when quiz generation succeeds twice but the first validated output
fails validation (no questions, or wrong language), generation is retried
exactly once (two generate calls in total), the stage still returns normally,
and if the retry's validated output also fails validation the stage's result
is the empty question set. -/
theorem c4_quiz_retry_then_empty (o : SlideOracles) (language raw1 raw2 : String)
    (h0 : o.quiz_raw 0 = .ok raw1) (h1 : o.quiz_raw 1 = .ok raw2)
    (hfail1 : (validate_and_fix_mcqs (o.parse_mcq_json raw1)).questions = [] ∨
      validate_mcq_language o.detect (validate_and_fix_mcqs (o.parse_mcq_json raw1))
        language = false) :
    (quiz_stage o language).2 = 2 ∧
    (∃ v, (quiz_stage o language).1 = .ok v) ∧
    ((validate_and_fix_mcqs (o.parse_mcq_json raw2)).questions = [] ∨
      validate_mcq_language o.detect (validate_and_fix_mcqs (o.parse_mcq_json raw2))
        language = false →
      (quiz_stage o language).1 = .ok { questions := [] }) := by
  have hcond : ((validate_and_fix_mcqs (o.parse_mcq_json raw1)).questions.isEmpty ||
      !(validate_mcq_language o.detect (validate_and_fix_mcqs (o.parse_mcq_json raw1))
        language)) = true := by
    rcases hfail1 with h | h
    · simp [h]
    · simp [h]
  have heval := quiz_stage_retry_eval o language raw1 raw2 h0 h1 hcond
  rw [heval]
  refine ⟨rfl, ?_, ?_⟩
  · by_cases hl : validate_mcq_language o.detect
        (validate_and_fix_mcqs (o.parse_mcq_json raw2)) language
    · exact ⟨validate_and_fix_mcqs (o.parse_mcq_json raw2), by simp [hl]⟩
    · exact ⟨{ questions := [] }, by simp [hl]⟩
  · intro hfail2
    rcases hfail2 with h | h
    · by_cases hl : validate_mcq_language o.detect
          (validate_and_fix_mcqs (o.parse_mcq_json raw2)) language
      · simp only [hl, Bool.not_true, Bool.false_eq_true, if_false]
        rw [validate_empty_of_no_questions _ h]
      · simp [hl]
    · simp [h]

/-- The oracle set for the C4 witness: generation succeeds twice but the JSON
never parses, so both validated outputs are empty. -/
def unparsable_quiz_oracles : SlideOracles :=
  { narration := .ok "hello"
    quiz_raw := fun _ => .ok "not json"
    parse_mcq_json := fun _ => none
    detect := fun _ => .ok "en"
    tts := .ok "audio.mp3"
    render := .ok "img.png"
    assemble := .ok "clip.mp4" }

/-- Witness for C4: with twice-unparsable generation output the stage makes
exactly two generate calls and returns the empty question set. -/
theorem c4_quiz_retry_then_empty_witness :
    (quiz_stage unparsable_quiz_oracles "en").2 = 2 ∧
    (∃ v, (quiz_stage unparsable_quiz_oracles "en").1 = .ok v) ∧
    ((validate_and_fix_mcqs (unparsable_quiz_oracles.parse_mcq_json "not json")).questions
        = [] ∨
      validate_mcq_language unparsable_quiz_oracles.detect
        (validate_and_fix_mcqs (unparsable_quiz_oracles.parse_mcq_json "not json")) "en"
        = false →
      (quiz_stage unparsable_quiz_oracles "en").1 = .ok { questions := [] }) :=
  c4_quiz_retry_then_empty unparsable_quiz_oracles "en" "not json" "not json"
    rfl rfl (Or.inl rfl)

/-- Oracles for the C3 failing input: narration and the quiz both succeed (the
quiz JSON parses into one valid English question), speech and image succeed,
and only the final per-slide video assembly raises. -/
def video_fails_oracles : SlideOracles :=
  { narration := .ok "hello"
    quiz_raw := fun _ => .ok "raw"
    parse_mcq_json := fun _ => some
      { questions := [ { question := some "What is X?",
                         options := some ["a", "b", "c", "d"],
                         answer := some "a",
                         difficulty := some "easy" } ] }
    detect := fun _ => .ok "en"
    tts := .ok "audio.mp3"
    render := .ok "img.png"
    assemble := .error "ffmpeg failed" }

/-- C3 (code bug): at the failing input — quiz generation requested and fully
successful, video assembly raising afterwards — the slide-boundary handler
re-marks the mcq sub-state Failed even though it had just been marked
Completed.  The cause: the orchestrator builds the stored quiz object from the
keys easy/medium/hard, which validate_and_fix_mcqs never emits, so
slide_result.qa is always the empty (falsy) dict and the handler's
"not slide_result.qa" test treats the completed quiz stage as never having
produced output.  The claim (completed sub-states are preserved) describes the
evident intent; the third conjunct exhibits the whole run: the update trace
marks mcq Completed (4th call) and then Failed (final call). -/
theorem c3_completed_mcq_remarked_failed :
    (quiz_stage video_fails_oracles "en").1 =
      .ok { questions := [ { question := "What is X?",
                             options := ["a", "b", "c", "d"],
                             answer := "a",
                             difficulty := "easy" } ] } ∧
    (process_slide video_fails_oracles "en" true true 2 "text").2.1.mcq = .failed ∧
    process_slide video_fails_oracles "en" true true 2 "text" =
      ({ slide_number := 2, text := "text", has_text := true,
         narration := some "hello", qa := some [],
         audio_path := some "audio.mp3", image_path := some "img.png",
         video_path := none },
       { slide_number := 2, narration := .completed, mcq := .failed,
         video := .failed, error := some "ffmpeg failed" },
       [ { narration := some .processing },
         { narration := some .completed },
         { mcq := some .processing },
         { mcq := some .completed },
         { video := some .processing },
         { narration := some .completed, mcq := some .failed,
           video := some .failed, error := some "ffmpeg failed" } ]) := by
  refine ⟨rfl, rfl, rfl⟩

/-! Monotonicity of the progress trace for small decks (C1). -/

theorem div_add_div_le (a b n : Nat) : a / n + b / n ≤ (a + b) / n := by
  rcases Nat.eq_zero_or_pos n with h | h
  · subst h
    simp
  · rw [Nat.le_div_iff_mul_le h]
    calc (a / n + b / n) * n = a / n * n + b / n * n := by ring
    _ ≤ a + b := Nat.add_le_add (Nat.div_mul_le_self a n) (Nat.div_mul_le_self b n)

theorem fifteen_le_eighty_div (n : Nat) (h1 : 1 ≤ n) (h5 : n ≤ 5) : 15 ≤ 80 / n := by
  interval_cases n <;> decide

theorem base_progress_step (n idx : Nat) (h1 : 1 ≤ n) (h5 : n ≤ 5) :
    base_progress n idx + 15 ≤ base_progress n (idx + 1) := by
  unfold base_progress
  have h15 := fifteen_le_eighty_div n h1 h5
  have hd : idx * 80 / n + 80 / n ≤ (idx * 80 + 80) / n := div_add_div_le _ _ _
  have he : (idx + 1) * 80 = idx * 80 + 80 := by ring
  rw [he]
  linarith

theorem base_progress_le_95 (n idx : Nat) (h1 : 1 ≤ n) (h5 : n ≤ 5) (hidx : idx < n) :
    base_progress n idx + 15 ≤ 95 := by
  unfold base_progress
  have h1' : idx * 80 ≤ (n - 1) * 80 := Nat.mul_le_mul_right _ (by omega)
  have h2' : idx * 80 / n ≤ (n - 1) * 80 / n := Nat.div_le_div_right h1'
  have h3' : (n - 1) * 80 / n ≤ 70 := by interval_cases n <;> decide
  have h4 : idx * 80 / n ≤ 70 := le_trans h2' h3'
  have h5' := Nat.add_le_add_right (Nat.add_le_add_left h4 10) 15
  exact le_trans h5' (by norm_num)

theorem base_progress_ge_10 (n idx : Nat) : 10 ≤ base_progress n idx :=
  Nat.le_add_right 10 _

theorem mem_slide_writes_bounds {n idx : Nat} {mw vw : Bool} {x : Nat}
    (hx : x ∈ slide_writes n idx mw vw) :
    base_progress n idx ≤ x ∧ x ≤ base_progress n idx + 15 := by
  cases mw <;> cases vw <;> simp [slide_writes] at hx <;> omega

theorem chain'_slide_writes (n idx : Nat) (mw vw : Bool) :
    List.Chain' (· ≤ ·) (slide_writes n idx mw vw) := by
  cases mw <;> cases vw <;> simp [slide_writes, List.chain'_cons, List.Chain']

theorem slide_writes_from_sorted (n : Nat) (h1 : 1 ≤ n) (h5 : n ≤ 5) :
    ∀ (rest : List (Bool × Bool)) (idx : Nat), idx + rest.length = n →
      List.Chain' (· ≤ ·) (slide_writes_from n idx rest) ∧
      ∀ x ∈ slide_writes_from n idx rest, base_progress n idx ≤ x ∧ x ≤ 95 := by
  intro rest
  induction rest with
  | nil =>
    intro idx _
    exact ⟨by simp [slide_writes_from], by simp [slide_writes_from]⟩
  | cons c rest ih =>
    intro idx h
    have hlen : idx + 1 + rest.length = n := by
      simp only [List.length_cons] at h
      omega
    have hidx : idx < n := by
      simp only [List.length_cons] at h
      omega
    obtain ⟨ihc, ihb⟩ := ih (idx + 1) hlen
    have hstep := base_progress_step n idx h1 h5
    constructor
    · rw [slide_writes_from, List.chain'_append]
      refine ⟨chain'_slide_writes n idx c.1 c.2, ihc, ?_⟩
      intro x hx y hy
      have hxm := List.mem_of_mem_getLast? hx
      have hym := List.mem_of_mem_head? hy
      have hxb := (mem_slide_writes_bounds hxm).2
      have hyb := (ihb y hym).1
      omega
    · intro x hx
      rw [slide_writes_from] at hx
      rcases List.mem_append.1 hx with hb | hr
      · have := mem_slide_writes_bounds hb
        have := base_progress_le_95 n idx h1 h5 hidx
        omega
      · have h1' := (ihb x hr).1
        have h2' := (ihb x hr).2
        omega

theorem chain'_progress_trace (cfg : List (Bool × Bool)) (stitch : Bool)
    (h5 : cfg.length ≤ 5) :
    List.Chain' (· ≤ ·) (progress_trace cfg stitch) := by
  cases hc : cfg with
  | nil =>
    cases stitch <;>
      norm_num [progress_trace, slide_writes_from, List.chain'_cons]
  | cons c rest =>
    rw [← hc]
    have h1 : 1 ≤ cfg.length := by rw [hc]; simp
    obtain ⟨hS, hSb⟩ :=
      slide_writes_from_sorted cfg.length h1 h5 cfg 0 (by omega)
    have hT : List.Chain' (· ≤ ·) ((if stitch then [95] else []) ++ [100]) := by
      cases stitch <;> norm_num [List.chain'_cons]
    have hTmem : ∀ y ∈ (if stitch then [95] else []) ++ [100], 95 ≤ y := by
      cases stitch <;> intro y hy <;> simp at hy <;> omega
    rw [progress_trace, List.chain'_cons']
    constructor
    · intro y hy
      have hym := List.mem_of_mem_head? hy
      rcases List.mem_append.1 hym with hyS | hyT
      · have := (hSb y hyS).1
        have := base_progress_ge_10 cfg.length 0
        omega
      · have := hTmem y hyT
        omega
    · rw [List.chain'_append]
      refine ⟨hS, hT, ?_⟩
      intro x hx y hy
      have hxm := List.mem_of_mem_getLast? hx
      have hym := List.mem_of_mem_head? hy
      have := (hSb x hxm).2
      have := hTmem y hym
      omega

/-- C1 (amended): the per-job progress values stored by the orchestrator's
reports (after update_progress clamps with min(·,100)) are pairwise
non-decreasing provided the deck has at most 5 text slides.  For ≥ 6 slides
the inter-slide stride 80 // total_slides drops below the +15 offset used
inside a slide and monotonicity genuinely breaks (see the counterexample). -/
theorem c1_progress_monotone_small_decks (cfg : List (Bool × Bool)) (stitch : Bool)
    (h5 : cfg.length ≤ 5) :
    List.Pairwise (· ≤ ·) (stored_trace cfg stitch) := by
  have hp : List.Pairwise (· ≤ ·) (progress_trace cfg stitch) :=
    List.chain'_iff_pairwise.mp (chain'_progress_trace cfg stitch h5)
  exact List.Pairwise.map _ (fun a b hab => min_le_min hab (le_refl 100)) hp

/-- Witness for C1 at a full three-slide run with stitching. -/
theorem c1_progress_monotone_small_decks_witness :
    List.Pairwise (· ≤ ·)
      (stored_trace [(true, true), (true, true), (true, true)] true) :=
  c1_progress_monotone_small_decks [(true, true), (true, true), (true, true)] true
    (by decide)

/-- C1 counterexample: with 6 text slides (reachable — the async /process
endpoint does not bound max_slides) slide 0 reports up to 25 while slide 1
starts at 10 + 80 // 6 = 23, so the stored sequence is not non-decreasing. -/
theorem c1_not_monotone_six_slides_counterexample :
    ¬ List.Pairwise (· ≤ ·) (stored_trace (List.replicate 6 (true, true)) true) := by
  decide

/-! Cancellation-flag persistence across arbitrary manager histories (C10). -/

/-- One externally triggered mutation of the job manager, with the data each
call site supplies (ids come from the environment, timestamps are ticks). -/
inductive Op where
  | createJob (id filename language : String) (max_slides : Nat)
      (generate_video generate_mcqs : Bool) (now : Nat)
  | startProcessing (id : String) (total : Nat) (nums : Option (List Nat)) (now : Nat)
  | updateProgress (id : String) (p : Int) (now : Nat)
  | updateSlideProgress (id : String) (num : Nat) (u : SlideUpd) (now : Nat)
  | completeJob (id : String) (r : JobResult) (now : Nat)
  | failJob (id : String) (e : String) (now : Nat)
  | cancelJob (id : String) (now : Nat)
deriving DecidableEq

/-- Applies one operation; a raised JobError leaves the state unchanged, as in
the source (exceptions are raised before any mutation). -/
def step (sett : Settings) (m : JobManager) : Op → JobManager
  | .createJob id fn lang ms gv gm now =>
    match create_job m sett now id fn lang ms gv gm with
    | .ok (m', _) => m'
    | .error _ => m
  | .startProcessing id total nums now => start_processing m id total nums now
  | .updateProgress id p now => update_progress m id p none none none now
  | .updateSlideProgress id num u now => update_slide_progress m id num u now
  | .completeJob id r now => complete_job m id r now
  | .failJob id e now => fail_job m id e now
  | .cancelJob id now =>
    match cancel_job m id now with
    | .ok (m', _) => m'
    | .error _ => m

/-- Runs a sequence of operations from a starting state. -/
def run (sett : Settings) (m : JobManager) (ops : List Op) : JobManager :=
  ops.foldl (step sett) m

/-- The id recorded when an operation is a cancel_job call that succeeded
(returned True) in the given state. -/
def cancel_success (m : JobManager) : Op → Option String
  | .cancelJob id now =>
    match cancel_job m id now with
    | .ok (_, true) => some id
    | _ => none
  | _ => none

/-- The ids of all successful cancellations along a run. -/
def cancel_log (sett : Settings) : JobManager → List Op → List String
  | _, [] => []
  | m, op :: rest => (cancel_success m op).toList ++ cancel_log sett (step sett m op) rest

/-- The manager as constructed at import time
(src/app/services/job_manager.py lines 101-104 and 392). -/
def initial_manager : JobManager :=
  JobManager.mk (JobStore.mk [] [] 100) [] []

theorem mem_flags_step (sett : Settings) (m : JobManager) (op : Op) (id : String) :
    id ∈ (step sett m op).cancel_flags ↔
      id ∈ m.cancel_flags ∨ cancel_success m op = some id := by
  cases op with
  | createJob cid fn lang ms gv gm now =>
    by_cases hc : sett.max_concurrent_jobs ≤ m.store.get_active_count
    · simp [step, create_job, hc, cancel_success]
    · simp [step, create_job, hc, cancel_success]
  | startProcessing cid total nums now => simp [step, start_processing, cancel_success]
  | updateProgress cid p now => simp [step, update_progress, cancel_success]
  | updateSlideProgress cid num u now =>
    cases hg : m.store.get cid with
    | none => simp [step, update_slide_progress, hg, cancel_success]
    | some jd => simp [step, update_slide_progress, hg, cancel_success]
  | completeJob cid r now => simp [step, complete_job, cancel_success]
  | failJob cid e now => simp [step, fail_job, cancel_success]
  | cancelJob cid now =>
    cases hg : m.store.get cid with
    | none => simp [step, cancel_job, hg, cancel_success]
    | some d =>
      by_cases ht : is_terminal d.status
      · simp [step, cancel_job, hg, ht, cancel_success]
      · simp [step, cancel_job, hg, ht, cancel_success, List.mem_insert_iff]
        tauto

theorem mem_flags_run (sett : Settings) (ops : List Op) :
    ∀ (m : JobManager) (id : String),
      id ∈ (run sett m ops).cancel_flags ↔
        id ∈ m.cancel_flags ∨ id ∈ cancel_log sett m ops := by
  induction ops with
  | nil =>
    intro m id
    simp [run, cancel_log]
  | cons op rest ih =>
    intro m id
    have hrun : run sett m (op :: rest) = run sett (step sett m op) rest := rfl
    rw [hrun, ih (step sett m op) id, mem_flags_step, cancel_log]
    simp only [List.mem_append, Option.mem_toList, Option.mem_def]
    tauto

theorem cancel_log_append (sett : Settings) (ops more : List Op) :
    ∀ m : JobManager, cancel_log sett m (ops ++ more) =
      cancel_log sett m ops ++ cancel_log sett (run sett m ops) more := by
  induction ops with
  | nil =>
    intro m
    simp [cancel_log, run]
  | cons op rest ih =>
    intro m
    show (cancel_success m op).toList ++ cancel_log sett (step sett m op) (rest ++ more) = _
    rw [ih (step sett m op)]
    simp [cancel_log, run]

/-- C10: for any history of manager operations starting from the freshly
constructed manager, is_cancelled returns True exactly for the ids whose
cancel_job call succeeded earlier; once set the flag survives every further
operation (including capacity evictions caused by later creates, which never
touch the flag dict), so check_cancellation keeps raising JobCancelledError,
while for never-cancelled or unknown ids is_cancelled returns False and
check_cancellation returns normally. -/
theorem c10_cancel_flag_persistence (sett : Settings) (ops more : List Op)
    (id : String) :
    (is_cancelled (run sett initial_manager ops) id = true ↔
      id ∈ cancel_log sett initial_manager ops) ∧
    (id ∈ cancel_log sett initial_manager ops →
      is_cancelled (run sett initial_manager (ops ++ more)) id = true ∧
      check_cancellation (run sett initial_manager (ops ++ more)) id =
        .error (.jobCancelled id)) ∧
    (id ∉ cancel_log sett initial_manager ops →
      is_cancelled (run sett initial_manager ops) id = false ∧
      check_cancellation (run sett initial_manager ops) id = .ok ()) := by
  have hbase : ∀ l : List Op, is_cancelled (run sett initial_manager l) id = true ↔
      id ∈ cancel_log sett initial_manager l := by
    intro l
    rw [is_cancelled, decide_eq_true_iff, mem_flags_run]
    simp [initial_manager]
  refine ⟨hbase ops, ?_, ?_⟩
  · intro hin
    have hin' : id ∈ cancel_log sett initial_manager (ops ++ more) := by
      rw [cancel_log_append]
      exact List.mem_append.mpr (Or.inl hin)
    have hc := (hbase (ops ++ more)).mpr hin'
    exact ⟨hc, by simp [check_cancellation, hc]⟩
  · intro hout
    have hc : is_cancelled (run sett initial_manager ops) id = false := by
      rcases Bool.eq_false_or_eq_true (is_cancelled (run sett initial_manager ops) id)
        with h | h
      · exact absurd ((hbase ops).mp h) hout
      · exact h
    exact ⟨hc, by simp [check_cancellation, hc]⟩

/-- Witness for C10: create job j, cancel it, then attempt complete_job — the
flag is set by the successful cancel and persists. -/
theorem c10_cancel_flag_persistence_witness :
    is_cancelled
      (run (Settings.mk 3) initial_manager
        ([Op.createJob "j" "deck.pptx" "en" 5 true true 0, Op.cancelJob "j" 1] ++
          [Op.completeJob "j" (sample_result "j") 2])) "j" = true ∧
    check_cancellation
      (run (Settings.mk 3) initial_manager
        ([Op.createJob "j" "deck.pptx" "en" 5 true true 0, Op.cancelJob "j" 1] ++
          [Op.completeJob "j" (sample_result "j") 2])) "j" =
      .error (.jobCancelled "j") :=
  (c10_cancel_flag_persistence (Settings.mk 3)
    [Op.createJob "j" "deck.pptx" "en" 5 true true 0, Op.cancelJob "j" 1]
    [Op.completeJob "j" (sample_result "j") 2] "j").2.1 (by decide)
